import Mathlib

/-!
Verification of the text-injection command of the wispr-clone repository.

Source (src/src-tauri/src/main.rs):

    fn type_text(text: String) \x7b
        let mut enigo = Enigo::new(&Settings::default()).unwrap();
        enigo.text(&text).unwrap();
    \x7d

The enigo library is external to the repository, so it is modelled as an
oracle (`EnigoLib`) deciding whether handle creation and text injection
succeed.  The command body is embedded as `type_text`, which records the
calls made into the library, the characters injected into the OS input
stream, and whether the invocation aborted (a Rust `unwrap` on an error
value).  A failed `text` call is modelled as injecting nothing: at the
granularity of the source, the whole string is handed to the library in
one call, which either succeeds or returns an error.
-/

/-- Result of running a Rust function whose only failure mode is an
`unwrap` abort: either a normal return value or an aborted invocation
carrying the abort message. -/
inductive RunResult (α : Type) where
  | ok (value : α) : RunResult α
  | panicked (msg : String) : RunResult α
  deriving Repr, DecidableEq

/-- Observable calls into the enigo input-injection library: handle
creation (`Enigo::new(&Settings::default())`) and text submission
(`enigo.text(&s)`). -/
inductive EnigoCall where
  | new : EnigoCall
  | text (s : String) : EnigoCall
  deriving Repr, DecidableEq

/-- Behaviour oracle for the external enigo library: whether handle
creation succeeds, and whether text injection succeeds for a given
string. -/
structure EnigoLib where
  newOk : Bool
  textOk : String → Bool

/-- Outcome of one `type_text` invocation: the library calls it made in
order, the characters it caused to be injected into the OS input
stream, and its result (normal return or abort). -/
structure InvocationOutcome where
  calls : List EnigoCall
  injected : List Char
  result : RunResult Unit
  deriving Repr, DecidableEq

/-- Shallow embedding of the Rust command `type_text`: create the enigo
handle with default settings and unwrap, then submit the text and
unwrap.  The first failed `unwrap` aborts the invocation. -/
def type_text (lib : EnigoLib) (text : String) : InvocationOutcome :=
  if lib.newOk then
    if lib.textOk text then
      { calls := [EnigoCall.new, EnigoCall.text text]
        injected := text.data
        result := RunResult.ok () }
    else
      { calls := [EnigoCall.new, EnigoCall.text text]
        injected := []
        result := RunResult.panicked "enigo text returned an error" }
  else
    { calls := [EnigoCall.new]
      injected := []
      result := RunResult.panicked "Enigo new returned an error" }

/-- Characters submitted to the injection library during an invocation:
the concatenation, in call order, of the arguments of its `text`
calls. -/
def submittedChars (calls : List EnigoCall) : List Char :=
  calls.foldr
    (fun c acc =>
      match c with
      | EnigoCall.new => acc
      | EnigoCall.text s => s.data ++ acc)
    []

/-- Sequential invocation of `type_text` against an explicit OS input
stream: the stream is extended by the characters injected during the
call, and the result of the call is returned alongside. -/
def invoke (lib : EnigoLib) (stream : List Char) (text : String) :
    List Char × RunResult Unit :=
  (stream ++ (type_text lib text).injected, (type_text lib text).result)

/-- A library behaviour on which every call succeeds. -/
def libAllOk : EnigoLib :=
  { newOk := true, textOk := fun _ => true }

/-- A library behaviour on which handle creation fails. -/
def libNewFails : EnigoLib :=
  { newOk := false, textOk := fun _ => true }

/-- A library behaviour on which handle creation succeeds but every text
injection fails. -/
def libTextFails : EnigoLib :=
  { newOk := true, textOk := fun _ => false }

/-- C1: whenever handle creation succeeds (so that the injection call is
reached), the characters submitted to the injection library are exactly
the characters of the input string, in order, with no omission,
reordering, or transformation. -/
theorem c1_submits_exactly_the_input (lib : EnigoLib) (S : String)
    (hnew : lib.newOk = true) :
    submittedChars (type_text lib S).calls = S.data := by
  cases h : lib.textOk S <;>
    simp [type_text, hnew, h, submittedChars]

/-- Witness for C1 at the all-succeeding library and the string "ab". -/
theorem c1_witness :
    libAllOk.newOk = true ∧
      submittedChars (type_text libAllOk "ab").calls = "ab".data :=
  ⟨rfl, c1_submits_exactly_the_input libAllOk "ab" rfl⟩

/-- C2: if handle creation or text injection fails, the invocation
aborts with an unrecoverable fault; no error value is recovered or
returned to the caller as a structured result. -/
theorem c2_failure_aborts (lib : EnigoLib) (S : String)
    (hfail : lib.newOk = false ∨ lib.textOk S = false) :
    ∃ msg, (type_text lib S).result = RunResult.panicked msg := by
  cases hn : lib.newOk with
  | false =>
    exact ⟨"Enigo new returned an error", by simp [type_text, hn]⟩
  | true =>
    cases hfail with
    | inl h => exact absurd (hn.symm.trans h) (by simp)
    | inr h =>
      exact ⟨"enigo text returned an error", by simp [type_text, hn, h]⟩

/-- Witness for C2 at a library whose handle creation fails. -/
theorem c2_witness :
    (libNewFails.newOk = false ∨ libNewFails.textOk "a" = false) ∧
      ∃ msg, (type_text libNewFails "a").result = RunResult.panicked msg :=
  ⟨Or.inl rfl, c2_failure_aborts libNewFails "a" (Or.inl rfl)⟩

/-- C3: invoking the command with the empty string injects no
keystrokes and raises no fault: the invocation succeeds and the
injected event sequence is empty. -/
theorem c3_empty_string (lib : EnigoLib)
    (hnew : lib.newOk = true) (htext : lib.textOk "" = true) :
    (type_text lib "").injected = [] ∧
      (type_text lib "").result = RunResult.ok () := by
  simp [type_text, hnew, htext]

/-- Witness for C3 at the all-succeeding library. -/
theorem c3_witness :
    libAllOk.newOk = true ∧ libAllOk.textOk "" = true ∧
      (type_text libAllOk "").injected = [] ∧
      (type_text libAllOk "").result = RunResult.ok () :=
  ⟨rfl, rfl, c3_empty_string libAllOk rfl rfl⟩

/-- C4: two successful sequential invocations extend the OS input
stream by the first string followed by the second string, with no
interleaving: the resulting stream is the concatenation of the prior
stream with both character sequences. -/
theorem c4_sequential_concatenation (lib : EnigoLib) (stream : List Char)
    (t1 t2 : String) (hnew : lib.newOk = true)
    (h1 : lib.textOk t1 = true) (h2 : lib.textOk t2 = true) :
    (invoke lib (invoke lib stream t1).1 t2).1 =
      stream ++ t1.data ++ t2.data := by
  simp [invoke, type_text, hnew, h1, h2, List.append_assoc]

/-- Witness for C4 at the all-succeeding library with "ab" then "cd". -/
theorem c4_witness :
    (invoke libAllOk (invoke libAllOk [] "ab").1 "cd").1 =
      [] ++ "ab".data ++ "cd".data :=
  c4_sequential_concatenation libAllOk [] "ab" "cd" rfl rfl rfl

/-- C5: if handle creation fails, the invocation does not silently
return success: its result is never the success value, and it is a
reported fault. -/
theorem c5_new_failure_reported (lib : EnigoLib) (S : String)
    (hnew : lib.newOk = false) :
    (type_text lib S).result ≠ RunResult.ok () ∧
      ∃ msg, (type_text lib S).result = RunResult.panicked msg := by
  constructor <;> simp [type_text, hnew]

/-- Witness for C5 at a library whose handle creation fails. -/
theorem c5_witness :
    libNewFails.newOk = false ∧
      (type_text libNewFails "x").result ≠ RunResult.ok () ∧
      ∃ msg, (type_text libNewFails "x").result = RunResult.panicked msg :=
  ⟨rfl, c5_new_failure_reported libNewFails "x" rfl⟩

/-- C6: the injection call is performed only after the handle has been
successfully initialized: a `text` call appears in the trace only when
handle creation succeeded, and every trace begins with the handle
creation call. -/
theorem c6_text_only_after_new (lib : EnigoLib) (S t : String)
    (hmem : EnigoCall.text t ∈ (type_text lib S).calls) :
    lib.newOk = true ∧
      (type_text lib S).calls.head? = some EnigoCall.new := by
  cases hn : lib.newOk with
  | true =>
    refine ⟨rfl, ?_⟩
    cases ht : lib.textOk S <;> simp [type_text, hn, ht]
  | false => simp [type_text, hn] at hmem

/-- Witness for C6 at the all-succeeding library and the string "a". -/
theorem c6_witness :
    EnigoCall.text "a" ∈ (type_text libAllOk "a").calls ∧
      libAllOk.newOk = true ∧
      (type_text libAllOk "a").calls.head? = some EnigoCall.new :=
  ⟨by simp [type_text, libAllOk],
    c6_text_only_after_new libAllOk "a" "a" (by simp [type_text, libAllOk])⟩

/-- C7: the command is stateless across invocations: its result does
not depend on the prior OS input stream, each invocation acquires the
handle at its start (the trace begins with handle creation), and an
invocation only appends its own injected characters to the stream. -/
theorem c7_stateless (lib : EnigoLib) (s1 s2 : List Char) (t : String) :
    (invoke lib s1 t).2 = (invoke lib s2 t).2 ∧
      (type_text lib t).calls.head? = some EnigoCall.new ∧
      (invoke lib s1 t).1 = s1 ++ (type_text lib t).injected := by
  refine ⟨rfl, ?_, rfl⟩
  cases hn : lib.newOk <;> cases ht : lib.textOk t <;>
    simp [type_text, hn, ht]

/-- C8: no validation branch rejects any input: for every string the
command proceeds to handle initialization, and whenever initialization
succeeds it proceeds to injection of that very string. -/
theorem c8_no_validation (lib : EnigoLib) (S : String) :
    EnigoCall.new ∈ (type_text lib S).calls ∧
      (lib.newOk = true → EnigoCall.text S ∈ (type_text lib S).calls) := by
  cases hn : lib.newOk <;> cases ht : lib.textOk S <;>
    simp [type_text, hn, ht]

/-- Witness for C8 at the all-succeeding library and the string "a". -/
theorem c8_witness :
    EnigoCall.new ∈ (type_text libAllOk "a").calls ∧
      (libAllOk.newOk = true →
        EnigoCall.text "a" ∈ (type_text libAllOk "a").calls) :=
  c8_no_validation libAllOk "a"

/-- C9: the command delivers no data back to the caller: every
invocation either returns the unit value or aborts; there is no other
result. -/
theorem c9_returns_nothing_on_success (lib : EnigoLib) (S : String) :
    (type_text lib S).result = RunResult.ok () ∨
      ∃ msg, (type_text lib S).result = RunResult.panicked msg := by
  cases hn : lib.newOk <;> cases ht : lib.textOk S <;>
    simp [type_text, hn, ht]

/-- C10: the command is deterministic in its input: under the same
library behaviour and input string, two invocations produce the same
result and inject the same character sequence, regardless of the prior
OS input stream. -/
theorem c10_deterministic (lib : EnigoLib) (s1 s2 : List Char) (t : String) :
    (invoke lib s1 t).2 = (invoke lib s2 t).2 ∧
      (invoke lib s1 t).1.drop s1.length =
        (invoke lib s2 t).1.drop s2.length := by
  refine ⟨rfl, ?_⟩
  simp [invoke]
